import Mathlib

/-
Verification development for the gesture-disambiguation state machine of
src/hello/composables/useDoubleClick.js.

The JavaScript composable keeps mutable refs (clickCount, isLongPress,
touchStartTime, singleClickTimer, longPressTimer, lastClickTime,
isDoubleClickProcessed, suppressClickUntil, suppressTimer) and arms three
kinds of setTimeout timers.  We embed it as an explicit state machine:

  * `State` carries every ref plus the multiset of live (scheduled, not
    yet fired or canceled) timeouts.  A timeout is identified by a fresh
    numeric id, exactly like a JS timer handle; a ref of the form
    `someTimer : Option Nat` holds the handle currently stored in the
    corresponding JS ref (which may be stale: JS never nulls a handle
    just because the timeout fired).
  * `setTimeout` allocates a fresh handle and appends a `Timeout` record
    to `pending`; `clearTimeout` removes the timeout with that handle
    (a no-op on a handle that already fired, as in JS).
  * Each event handler of the source is translated line by line.
  * Timer expiry is an explicit event `Ev.fire id`: it runs the timeout's
    closure only when that handle is still pending and its deadline is
    the current time, mirroring the event loop firing a due timeout.
  * Callback invocations (onSingleClick / onDoubleClick / onLongPress)
    are recorded as `Emit` values carrying the invocation instant and a
    snapshot of the state live at the instant the callback is entered.

Time is wall-clock milliseconds as a `Nat` (JS `Date.now()`); all
subtractions in the source compare elapsed times of monotone clocks, so
truncated `Nat` subtraction agrees with JS number subtraction on every
schedulable trace.
-/

namespace UseDoubleClick

/-- The three kinds of timeout the composable arms: the single-click
confirmation timer, the long-press timer and the suppression-expiry
timer. -/
inductive TKind
  | singleClick
  | longPress
  | suppress
deriving Repr, DecidableEq

/-- A live timeout: its JS handle, its absolute expiry instant, and which
closure it runs. -/
structure Timeout where
  id : Nat
  deadline : Nat
  kind : TKind
deriving Repr, DecidableEq

/-- Construction-time options of `useDoubleClick`.  The callbacks are
modelled by presence flags; source defaults are `delay = 300`,
`longPressDelay = 800`. -/
structure Config where
  delay : Nat
  longPressDelay : Nat
  hasSingleClick : Bool
  hasDoubleClick : Bool
  hasLongPress : Bool
deriving Repr, DecidableEq

/-- The mutable refs of the composable plus the live timeouts and the
fresh-handle counter. -/
structure State where
  clickCount : Nat
  isLongPress : Bool
  touchStartTime : Nat
  singleClickTimer : Option Nat
  longPressTimer : Option Nat
  lastClickTime : Nat
  isDoubleClickProcessed : Bool
  suppressClickUntil : Nat
  suppressTimer : Option Nat
  pending : List Timeout
  nextId : Nat
deriving Repr, DecidableEq

/-- Which callback an emission corresponds to. -/
inductive Cb
  | single
  | double
  | long
deriving Repr, DecidableEq

/-- One callback invocation: which callback, at what instant, and the
snapshot of the classifier state live when the callback is entered. -/
structure Emit where
  cb : Cb
  time : Nat
  snap : State
deriving Repr, DecidableEq

/-- The initial state: all counters zero, all refs null, nothing
scheduled. -/
def initState : State :=
  { clickCount := 0
    isLongPress := false
    touchStartTime := 0
    singleClickTimer := none
    longPressTimer := none
    lastClickTime := 0
    isDoubleClickProcessed := false
    suppressClickUntil := 0
    suppressTimer := none
    pending := []
    nextId := 0 }

/-- JS `setTimeout`: allocate a fresh handle and schedule a timeout. -/
def setTimeout (s : State) (k : TKind) (deadline : Nat) : Nat × State :=
  (s.nextId,
   { s with pending := s.pending ++ [⟨s.nextId, deadline, k⟩]
            nextId := s.nextId + 1 })

/-- JS `clearTimeout`: drop the timeout with this handle if it is still
scheduled; a no-op on a handle that already fired. -/
def clearTimeout (s : State) (i : Nat) : State :=
  { s with pending := s.pending.filter (fun tm => tm.id ≠ i) }

/-- `clearAllTimers` of the source: for each of the three refs, if it
holds a handle, clear that timeout and null the ref. -/
def clearAllTimers (s : State) : State :=
  let s1 :=
    match s.singleClickTimer with
    | some i => { clearTimeout s i with singleClickTimer := none }
    | none => s
  let s2 :=
    match s1.longPressTimer with
    | some i => { clearTimeout s1 i with longPressTimer := none }
    | none => s1
  match s2.suppressTimer with
  | some i => { clearTimeout s2 i with suppressTimer := none }
  | none => s2

/-- `resetState(preserveSuppression)` of the source: zero the counters,
clear the suppression field unless asked to preserve it, then
`clearAllTimers`. -/
def resetState (preserveSuppression : Bool) (s : State) : State :=
  let s1 := { s with clickCount := 0
                     isLongPress := false
                     touchStartTime := 0
                     lastClickTime := 0
                     isDoubleClickProcessed := false }
  let s2 := if preserveSuppression then s1 else { s1 with suppressClickUntil := 0 }
  clearAllTimers s2

/-- `handleTouchStart`: record the start instant, clear the stale
long-press flag, and (when `onLongPress` is configured) arm a long-press
timer — the source stores the new handle into the ref without clearing a
previously stored one. -/
def handleTouchStart (cfg : Config) (now : Nat) (s : State) : State :=
  let s1 := { s with touchStartTime := now, isLongPress := false }
  if cfg.hasLongPress then
    let (i, s2) := setTimeout s1 .longPress (now + cfg.longPressDelay)
    { s2 with longPressTimer := some i }
  else s1

/-- `handleTouchMove`: cancel the long-press timer held by the ref. -/
def handleTouchMove (s : State) : State :=
  match s.longPressTimer with
  | some i => { clearTimeout s i with longPressTimer := none }
  | none => s

/-- The closure armed by `handleTouchStart`: on expiry mark
`isLongPress`, cancel every timer, then invoke `onLongPress`. -/
def longPressTimerBody (now : Nat) (s : State) : State × List Emit :=
  let s1 := { s with isLongPress := true }
  let s2 := clearAllTimers s1
  (s2, [⟨Cb.long, now, s2⟩])

/-- The closure of the single-click confirmation timer: if `clickCount`
is still 1, invoke `onSingleClick` (when configured); either way reset
the session.  The callback runs before the reset, on the state live at
that instant. -/
def singleClickTimerBody (cfg : Config) (now : Nat) (s : State) : State × List Emit :=
  if s.clickCount = 1 then
    let em := if cfg.hasSingleClick then [Emit.mk Cb.single now s] else []
    (resetState false s, em)
  else
    (resetState false s, [])

/-- The closure of the suppression-expiry timer: clear the suppression
instant (the source does not null the `suppressTimer` ref here). -/
def suppressTimerBody (s : State) : State :=
  { s with suppressClickUntil := 0 }

/-- `handleTouchEnd`: debounce, then long-press guard, then click
counting; translated line by line from the source. -/
def handleTouchEnd (cfg : Config) (now : Nat) (s : State) : State × List Emit :=
  if now - s.lastClickTime < 50 then (s, [])
  else
  let s1 := { s with lastClickTime := now }
  let touchDuration := now - s1.touchStartTime
  let s2 :=
    match s1.longPressTimer with
    | some i => { clearTimeout s1 i with longPressTimer := none }
    | none => s1
  if s2.isLongPress = true ∨ cfg.longPressDelay ≤ touchDuration then
    (resetState false s2, [])
  else
  let s3 := { s2 with clickCount := s2.clickCount + 1 }
  if s3.clickCount = 1 then
    let (i, s4) := setTimeout s3 .singleClick (now + cfg.delay)
    ({ s4 with singleClickTimer := some i }, [])
  else if s3.clickCount = 2 then
    let s4 := { s3 with isDoubleClickProcessed := true
                        suppressClickUntil := now + 100 }
    let s5 :=
      match s4.singleClickTimer with
      | some i => { clearTimeout s4 i with singleClickTimer := none }
      | none => s4
    let s6 :=
      match s5.longPressTimer with
      | some i => { clearTimeout s5 i with longPressTimer := none }
      | none => s5
    let (i, s7) := setTimeout s6 .suppress (now + 100)
    let s8 := { s7 with suppressTimer := some i }
    let em := if cfg.hasDoubleClick then [Emit.mk Cb.double now s8] else []
    (resetState true s8, em)
  else (s3, [])

/-- `handleClick` (the PC path): suppression window, debounce, then the
same click counting; translated line by line from the source. -/
def handleClick (cfg : Config) (now : Nat) (s : State) : State × List Emit :=
  if now < s.suppressClickUntil then (s, [])
  else if now - s.lastClickTime < 50 then (s, [])
  else
  let s1 := { s with lastClickTime := now }
  let s2 :=
    match s1.longPressTimer with
    | some i => { clearTimeout s1 i with longPressTimer := none }
    | none => s1
  let s3 := { s2 with clickCount := s2.clickCount + 1 }
  if s3.clickCount = 1 then
    let (i, s4) := setTimeout s3 .singleClick (now + cfg.delay)
    ({ s4 with singleClickTimer := some i }, [])
  else if s3.clickCount = 2 then
    let s4 := clearAllTimers s3
    let em := if cfg.hasDoubleClick then [Emit.mk Cb.double now s4] else []
    (resetState false s4, em)
  else (s3, [])

/-- `handleTouchCancel`: cancel every timer and reset the session. -/
def handleTouchCancel (s : State) : State :=
  resetState false (clearAllTimers s)

/-- An event of the serial event loop: a raw input event or the expiry
of the timeout with the given handle. -/
inductive Ev
  | touchStart
  | touchMove
  | touchEnd
  | touchCancel
  | click
  | fire (i : Nat)
deriving Repr, DecidableEq

/-- Dispatch a fired timeout to its closure. -/
def runTimeout (cfg : Config) (now : Nat) (k : TKind) (s : State) : State × List Emit :=
  match k with
  | .longPress => longPressTimerBody now s
  | .singleClick => singleClickTimerBody cfg now s
  | .suppress => (suppressTimerBody s, [])

/-- One step of the event loop at instant `now`.  A `fire i` event runs
the closure of the still-pending timeout with handle `i` exactly at its
deadline (the timeout is consumed first, as in JS); it is a no-op for a
handle that was canceled or already fired. -/
def step (cfg : Config) (now : Nat) (e : Ev) (s : State) : State × List Emit :=
  match e with
  | .touchStart => (handleTouchStart cfg now s, [])
  | .touchMove => (handleTouchMove s, [])
  | .touchEnd => handleTouchEnd cfg now s
  | .touchCancel => (handleTouchCancel s, [])
  | .click => handleClick cfg now s
  | .fire i =>
    match s.pending.find? (fun tm => tm.id == i) with
    | some tm =>
      if tm.deadline = now then
        runTimeout cfg now tm.kind
          { s with pending := s.pending.filter (fun x => x.id ≠ i) }
      else (s, [])
    | none => (s, [])

/-- Run a timed event sequence from a state, collecting every callback
invocation in order. -/
def run (cfg : Config) : List (Nat × Ev) → State → State × List Emit
  | [], s => (s, [])
  | (t, e) :: rest, s =>
    let p := step cfg t e s
    let q := run cfg rest p.1
    (q.1, p.2 ++ q.2)

/-- The configuration of the demo page: all three callbacks configured,
source-default timings. -/
def cfgD : Config :=
  { delay := 300, longPressDelay := 800
    hasSingleClick := true, hasDoubleClick := true, hasLongPress := true }

/-- The canonical touch double-tap: two touch-start/touch-end pairs 100 ms
apart, the second tap ending at t = 210. -/
def trDouble : List (Nat × Ev) :=
  [(100, .touchStart), (110, .touchEnd), (200, .touchStart), (210, .touchEnd)]

/-- The classifier state right after the double-tap `trDouble` resolves:
counters reset, nothing scheduled, but `suppressClickUntil` still set to
310 (= 210 + 100). -/
def sAfterDouble : State :=
  { clickCount := 0
    isLongPress := false
    touchStartTime := 0
    singleClickTimer := none
    longPressTimer := none
    lastClickTime := 0
    isDoubleClickProcessed := false
    suppressClickUntil := 310
    suppressTimer := none
    pending := []
    nextId := 4 }

/-- The classifier state after the first three events of `trDouble`,
i.e. just before the second touch-end. -/
def sBeforeSecondEnd : State :=
  { clickCount := 1
    isLongPress := false
    touchStartTime := 200
    singleClickTimer := some 1
    longPressTimer := some 2
    lastClickTime := 110
    isDoubleClickProcessed := false
    suppressClickUntil := 0
    suppressTimer := none
    pending := [⟨1, 410, .singleClick⟩, ⟨2, 1000, .longPress⟩]
    nextId := 3 }

/-- The state snapshot live at the instant `onDoubleClick` is entered
during the second touch-end of `trDouble`. -/
def dblSnap : State :=
  { clickCount := 2
    isLongPress := false
    touchStartTime := 200
    singleClickTimer := none
    longPressTimer := none
    lastClickTime := 210
    isDoubleClickProcessed := true
    suppressClickUntil := 310
    suppressTimer := some 3
    pending := [⟨3, 310, .suppress⟩]
    nextId := 4 }

/-- The emission produced by the second touch-end of `trDouble`. -/
def dblEmit : Emit := ⟨Cb.double, 210, dblSnap⟩

/-- A configuration whose double-click window is longer than its
long-press hold time (both are free construction parameters). -/
def cfgSlow : Config :=
  { delay := 1000, longPressDelay := 100
    hasSingleClick := true, hasDoubleClick := true, hasLongPress := true }

/-- Tap, then press and hold until the long-press timer (handle 2) fires,
then a click 60 ms after the long-press callback. -/
def trLongThenClick : List (Nat × Ev) :=
  [(50, .touchStart), (60, .touchEnd), (120, .touchStart), (220, .fire 2), (280, .click)]

section Helpers

@[simp] lemma clearAllTimers_clickCount (s : State) :
    (clearAllTimers s).clickCount = s.clickCount := by
  cases h1 : s.singleClickTimer <;> cases h2 : s.longPressTimer <;>
    cases h3 : s.suppressTimer <;> simp [clearAllTimers, clearTimeout, h1, h2, h3]

@[simp] lemma clearAllTimers_isLongPress (s : State) :
    (clearAllTimers s).isLongPress = s.isLongPress := by
  cases h1 : s.singleClickTimer <;> cases h2 : s.longPressTimer <;>
    cases h3 : s.suppressTimer <;> simp [clearAllTimers, clearTimeout, h1, h2, h3]

@[simp] lemma clearAllTimers_touchStartTime (s : State) :
    (clearAllTimers s).touchStartTime = s.touchStartTime := by
  cases h1 : s.singleClickTimer <;> cases h2 : s.longPressTimer <;>
    cases h3 : s.suppressTimer <;> simp [clearAllTimers, clearTimeout, h1, h2, h3]

@[simp] lemma clearAllTimers_lastClickTime (s : State) :
    (clearAllTimers s).lastClickTime = s.lastClickTime := by
  cases h1 : s.singleClickTimer <;> cases h2 : s.longPressTimer <;>
    cases h3 : s.suppressTimer <;> simp [clearAllTimers, clearTimeout, h1, h2, h3]

@[simp] lemma clearAllTimers_isDoubleClickProcessed (s : State) :
    (clearAllTimers s).isDoubleClickProcessed = s.isDoubleClickProcessed := by
  cases h1 : s.singleClickTimer <;> cases h2 : s.longPressTimer <;>
    cases h3 : s.suppressTimer <;> simp [clearAllTimers, clearTimeout, h1, h2, h3]

@[simp] lemma clearAllTimers_suppressClickUntil (s : State) :
    (clearAllTimers s).suppressClickUntil = s.suppressClickUntil := by
  cases h1 : s.singleClickTimer <;> cases h2 : s.longPressTimer <;>
    cases h3 : s.suppressTimer <;> simp [clearAllTimers, clearTimeout, h1, h2, h3]

@[simp] lemma clearAllTimers_nextId (s : State) :
    (clearAllTimers s).nextId = s.nextId := by
  cases h1 : s.singleClickTimer <;> cases h2 : s.longPressTimer <;>
    cases h3 : s.suppressTimer <;> simp [clearAllTimers, clearTimeout, h1, h2, h3]

@[simp] lemma clearAllTimers_singleClickTimer (s : State) :
    (clearAllTimers s).singleClickTimer = none := by
  cases h1 : s.singleClickTimer <;> cases h2 : s.longPressTimer <;>
    cases h3 : s.suppressTimer <;> simp [clearAllTimers, clearTimeout, h1, h2, h3]

@[simp] lemma clearAllTimers_longPressTimer (s : State) :
    (clearAllTimers s).longPressTimer = none := by
  cases h1 : s.singleClickTimer <;> cases h2 : s.longPressTimer <;>
    cases h3 : s.suppressTimer <;> simp [clearAllTimers, clearTimeout, h1, h2, h3]

@[simp] lemma clearAllTimers_suppressTimer (s : State) :
    (clearAllTimers s).suppressTimer = none := by
  cases h1 : s.singleClickTimer <;> cases h2 : s.longPressTimer <;>
    cases h3 : s.suppressTimer <;> simp [clearAllTimers, clearTimeout, h1, h2, h3]

@[simp] lemma resetState_clickCount (p : Bool) (s : State) :
    (resetState p s).clickCount = 0 := by
  cases p <;> simp [resetState]

@[simp] lemma resetState_isLongPress (p : Bool) (s : State) :
    (resetState p s).isLongPress = false := by
  cases p <;> simp [resetState]

@[simp] lemma resetState_touchStartTime (p : Bool) (s : State) :
    (resetState p s).touchStartTime = 0 := by
  cases p <;> simp [resetState]

@[simp] lemma resetState_lastClickTime (p : Bool) (s : State) :
    (resetState p s).lastClickTime = 0 := by
  cases p <;> simp [resetState]

@[simp] lemma resetState_isDoubleClickProcessed (p : Bool) (s : State) :
    (resetState p s).isDoubleClickProcessed = false := by
  cases p <;> simp [resetState]

@[simp] lemma resetState_suppressClickUntil (p : Bool) (s : State) :
    (resetState p s).suppressClickUntil = if p then s.suppressClickUntil else 0 := by
  cases p <;> simp [resetState]

@[simp] lemma resetState_singleClickTimer (p : Bool) (s : State) :
    (resetState p s).singleClickTimer = none := by
  cases p <;> simp [resetState]

@[simp] lemma resetState_longPressTimer (p : Bool) (s : State) :
    (resetState p s).longPressTimer = none := by
  cases p <;> simp [resetState]

@[simp] lemma resetState_suppressTimer (p : Bool) (s : State) :
    (resetState p s).suppressTimer = none := by
  cases p <;> simp [resetState]

end Helpers

/-- Claim C1: the claim states that after a touch-path double-click the
armed suppression-expiry timer eventually fires and clears
`doubleClickSuppressUntil` back to 0.  The code does the opposite: the
`resetState(true)` call that ends the double-click branch runs
`clearAllTimers`, which cancels the suppression timer armed a moment
earlier.  After the double-tap `trDouble`, `suppressClickUntil` is 310
while no timeout at all is scheduled, so no `fire` event can ever clear
the field again: it dangles forever unless a later event resets it. -/
theorem C1_suppress_timer_is_canceled_field_dangles :
    (run cfgD trDouble initState).1 = sAfterDouble ∧
    sAfterDouble.suppressClickUntil = 310 ∧
    sAfterDouble.suppressTimer = none ∧
    sAfterDouble.pending = [] ∧
    ∀ (t i : Nat), step cfgD t (.fire i) sAfterDouble = (sAfterDouble, []) := by
  refine ⟨by decide, by decide, by decide, by decide, ?_⟩
  intro t i
  simp [step, sAfterDouble]

/-- Claim C2, counterexample: the claim states that when a callback is
invoked the session counters have already been reset.  On the canonical
double-tap, the state snapshot live at the instant `onDoubleClick` is
entered still has `clickCount = 2`: every callback in the source runs
before `resetState`, not after. -/
theorem C2_counterexample_clickCount_not_reset_at_callback :
    (run cfgD trDouble initState).2.map (fun e => (e.cb, e.snap.clickCount))
      = [(Cb.double, 2)] := by
  decide

/-- Every emission of the touch-end resolver is a double-click whose
snapshot holds `clickCount = 2` with the single-click and long-press
refs already cleared, and the post-handler state is fully reset. -/
lemma touchEnd_emit_spec (cfg : Config) (now : Nat) (s : State) :
    ∀ em ∈ (handleTouchEnd cfg now s).2,
      em.cb = Cb.double ∧ em.time = now ∧ em.snap.clickCount = 2 ∧
      em.snap.singleClickTimer = none ∧ em.snap.longPressTimer = none ∧
      (handleTouchEnd cfg now s).1.clickCount = 0 ∧
      (handleTouchEnd cfg now s).1.singleClickTimer = none ∧
      (handleTouchEnd cfg now s).1.longPressTimer = none ∧
      (handleTouchEnd cfg now s).1.suppressTimer = none := by
  intro em hm
  rcases hl : s.longPressTimer with _ | i <;> rcases hs : s.singleClickTimer with _ | j <;>
      simp only [handleTouchEnd, hl, hs, setTimeout, clearTimeout] at hm ⊢ <;>
    split_ifs at hm ⊢ <;> simp_all

/-- Every emission of the click resolver is a double-click whose
snapshot holds `clickCount = 2` with the single-click and long-press
refs already cleared, and the post-handler state is fully reset. -/
lemma click_emit_spec (cfg : Config) (now : Nat) (s : State) :
    ∀ em ∈ (handleClick cfg now s).2,
      em.cb = Cb.double ∧ em.time = now ∧ em.snap.clickCount = 2 ∧
      em.snap.singleClickTimer = none ∧ em.snap.longPressTimer = none ∧
      (handleClick cfg now s).1.clickCount = 0 ∧
      (handleClick cfg now s).1.singleClickTimer = none ∧
      (handleClick cfg now s).1.longPressTimer = none ∧
      (handleClick cfg now s).1.suppressTimer = none := by
  intro em hm
  rcases hl : s.longPressTimer with _ | i <;> rcases hs : s.singleClickTimer with _ | j <;>
      simp only [handleClick, hl, hs, setTimeout, clearTimeout] at hm ⊢ <;>
    split_ifs at hm ⊢ <;> simp_all

/-- Claim C2, amended: at the instant a callback is invoked the timer
refs are already cleared (single-click and long-press refs at
`onDoubleClick`; all three at `onLongPress`), but the session counters
are NOT yet reset — the snapshot holds `clickCount = 2` during
`onDoubleClick` and `clickCount = 1` during `onSingleClick` — because
every callback runs before `resetState`; the reset state is only
reached after the callback returns (and the long-press closure never
resets the counters at all), so a failure raised inside a callback
skips the reset and leaves the counters stale. -/
theorem C2_amended_callbacks_run_before_reset :
    ∀ (cfg : Config) (t : Nat) (e : Ev) (s : State) (em : Emit),
      em ∈ (step cfg t e s).2 →
      (em.cb = Cb.double →
        em.snap.clickCount = 2 ∧ em.snap.singleClickTimer = none ∧
        em.snap.longPressTimer = none) ∧
      (em.cb = Cb.single → em.snap.clickCount = 1) ∧
      (em.cb = Cb.long →
        em.snap.isLongPress = true ∧ em.snap.singleClickTimer = none ∧
        em.snap.longPressTimer = none ∧ em.snap.suppressTimer = none) ∧
      ((em.cb = Cb.double ∨ em.cb = Cb.single) →
        (step cfg t e s).1.clickCount = 0 ∧
        (step cfg t e s).1.singleClickTimer = none ∧
        (step cfg t e s).1.longPressTimer = none ∧
        (step cfg t e s).1.suppressTimer = none) := by
  intro cfg t e s em hm
  cases e with
  | touchStart => simp [step] at hm
  | touchMove => simp [step] at hm
  | touchCancel => simp [step] at hm
  | touchEnd =>
      have h := touchEnd_emit_spec cfg t s em hm
      simp only [step]
      refine ⟨fun _ => ⟨h.2.2.1, h.2.2.2.1, h.2.2.2.2.1⟩, ?_, ?_, ?_⟩
      · intro hc; rw [h.1] at hc; cases hc
      · intro hc; rw [h.1] at hc; cases hc
      · intro _; exact ⟨h.2.2.2.2.2.1, h.2.2.2.2.2.2.1, h.2.2.2.2.2.2.2.1, h.2.2.2.2.2.2.2.2⟩
  | click =>
      have h := click_emit_spec cfg t s em hm
      simp only [step]
      refine ⟨fun _ => ⟨h.2.2.1, h.2.2.2.1, h.2.2.2.2.1⟩, ?_, ?_, ?_⟩
      · intro hc; rw [h.1] at hc; cases hc
      · intro hc; rw [h.1] at hc; cases hc
      · intro _; exact ⟨h.2.2.2.2.2.1, h.2.2.2.2.2.2.1, h.2.2.2.2.2.2.2.1, h.2.2.2.2.2.2.2.2⟩
  | fire i =>
      simp only [step] at hm ⊢
      rcases hf : s.pending.find? (fun tm => tm.id == i) with _ | tm
      · rw [hf] at hm; simp at hm
      · rw [hf] at hm ⊢
        by_cases hd : tm.deadline = t
        · simp only [hd, if_true] at hm ⊢
          rcases hk : tm.kind with _ | _ | _ <;>
            simp only [runTimeout, hk, longPressTimerBody, singleClickTimerBody,
              suppressTimerBody] at hm ⊢
          · split_ifs at hm ⊢ <;> simp_all
          · simp at hm
            subst hm
            simp
          · simp at hm
        · simp [hd] at hm

/-- Witness for C2's amended theorem: on the second touch-end of the
canonical double-tap, the recorded `onDoubleClick` snapshot has
`clickCount = 2` and cleared refs, and the post-step state is reset. -/
theorem C2_amended_witness :
    dblEmit ∈ (step cfgD 210 Ev.touchEnd sBeforeSecondEnd).2 ∧
    dblEmit.snap.clickCount = 2 ∧
    dblEmit.snap.singleClickTimer = none ∧
    dblEmit.snap.longPressTimer = none ∧
    (step cfgD 210 Ev.touchEnd sBeforeSecondEnd).1.clickCount = 0 :=
  ⟨by decide,
   ((C2_amended_callbacks_run_before_reset cfgD 210 Ev.touchEnd sBeforeSecondEnd dblEmit
      (by decide)).1 (by decide)).1,
   ((C2_amended_callbacks_run_before_reset cfgD 210 Ev.touchEnd sBeforeSecondEnd dblEmit
      (by decide)).1 (by decide)).2.1,
   ((C2_amended_callbacks_run_before_reset cfgD 210 Ev.touchEnd sBeforeSecondEnd dblEmit
      (by decide)).1 (by decide)).2.2,
   ((C2_amended_callbacks_run_before_reset cfgD 210 Ev.touchEnd sBeforeSecondEnd dblEmit
      (by decide)).2.2.2 (Or.inl (by decide))).1⟩

/-- Claim C3: the claim states that once the long-press timer fires, no
single- or double-click callback fires in the same episode (at most one
callback per episode).  The code violates it: the long-press closure
cancels the timers but never resets `clickCount`, and `handleClick` never
checks `isLongPress`.  With a configuration whose `delay` exceeds its
`longPressDelay`, a tap leaves `clickCount = 1`, a subsequent press lets
the long-press timer fire (`onLongPress`), and a click 60 ms later
increments the stale counter to 2 and fires `onDoubleClick` — two
callbacks with no session reset in between (`clickCount` is still 1
right after the long-press callback). -/
theorem C3_double_click_can_follow_long_press :
    (run cfgSlow trLongThenClick initState).2.map (fun e => (e.cb, e.time))
      = [(Cb.long, 220), (Cb.double, 280)] ∧
    (run cfgSlow (trLongThenClick.take 4) initState).2.map Emit.cb = [Cb.long] ∧
    (run cfgSlow (trLongThenClick.take 4) initState).1.clickCount = 1 := by
  decide

/-- Claim C5: after the touch-path double-tap `trDouble` resolves at
t = 210 (emitting exactly one `onDoubleClick`), a click delivered at any
t < 310 (strictly less than 100 ms later) is discarded — the state is
unchanged and nothing is emitted — while a click at any t ≥ 310 is
accepted and starts a new episode: `clickCount` becomes 1 and a
single-click confirmation timer is armed for `delay` ms. -/
theorem C5_post_double_click_suppression_window :
    ∀ (t t' : Nat), 210 ≤ t → t < 310 → 310 ≤ t' →
      (run cfgD trDouble initState).1 = sAfterDouble ∧
      (run cfgD trDouble initState).2.map Emit.cb = [Cb.double] ∧
      handleClick cfgD t sAfterDouble = (sAfterDouble, []) ∧
      (handleClick cfgD t' sAfterDouble).2 = [] ∧
      (handleClick cfgD t' sAfterDouble).1.clickCount = 1 ∧
      (handleClick cfgD t' sAfterDouble).1.singleClickTimer = some 4 ∧
      (handleClick cfgD t' sAfterDouble).1.pending = [⟨4, t' + 300, TKind.singleClick⟩] := by
  intro t t' h1 h2 h3
  have hn : ¬ t' < 310 := by omega
  have hd : ¬ t' < 50 := by omega
  refine ⟨by decide, by decide, ?_, ?_⟩
  · simp [handleClick, sAfterDouble, h2]
  · simp [handleClick, sAfterDouble, setTimeout, hn, hd, cfgD]

/-- Witness for C5 at t = 250 (discarded) and t = 310 (accepted). -/
theorem C5_witness :
    (210 ≤ 250 ∧ 250 < 310 ∧ 310 ≤ 310) ∧
    handleClick cfgD 250 sAfterDouble = (sAfterDouble, []) ∧
    (handleClick cfgD 310 sAfterDouble).1.clickCount = 1 :=
  ⟨by decide,
   (C5_post_double_click_suppression_window 250 310 (by decide) (by decide)
      (by decide)).2.2.1,
   (C5_post_double_click_suppression_window 250 310 (by decide) (by decide)
      (by decide)).2.2.2.2.1⟩

/-- Claim C4: the claim states that at most one long-press timer is ever
outstanding, every arming operation first canceling the prior timer of
that kind.  `handleTouchStart` in fact overwrites `longPressTimer.value`
with a new `setTimeout` handle without any `clearTimeout`: after two
touch-starts with no intervening touch-end, two live long-press timeouts
are scheduled at once, and a touch-move then cancels only the one whose
handle the ref still holds — the leaked first timeout still fires
`onLongPress` at t = 900. -/
theorem C4_two_live_long_press_timers :
    ((run cfgD [(100, .touchStart), (200, .touchStart)] initState).1.pending.filter
        (fun tm => tm.kind == TKind.longPress)).length = 2 ∧
    (run cfgD [(100, .touchStart), (200, .touchStart), (250, .touchMove), (900, .fire 0)]
        initState).2.map (fun e => (e.cb, e.time)) = [(Cb.long, 900)] := by
  decide

/-- Claim C6: a single touch-start (at `a`) / touch-end (at `b`) pair
held shorter than `longPressDelay`, with no further input: `clickCount`
is 1 immediately after the touch-end and nothing has been emitted; when
the single-click confirmation timer (handle 1) fires `delay` ms after
the touch-end, exactly one `onSingleClick` is invoked, at instant
`b + delay`, and the session is then reset (counters zero, nothing
scheduled). -/
theorem C6_lone_tap_yields_one_single_click :
    ∀ (cfg : Config) (a b : Nat),
      cfg.hasLongPress = true → cfg.hasSingleClick = true →
      50 ≤ b → a ≤ b → b - a < cfg.longPressDelay →
      (run cfg [(a, .touchStart), (b, .touchEnd)] initState).1.clickCount = 1 ∧
      (run cfg [(a, .touchStart), (b, .touchEnd)] initState).2 = [] ∧
      (run cfg [(a, .touchStart), (b, .touchEnd), (b + cfg.delay, .fire 1)] initState).2.map
          (fun e => (e.cb, e.time)) = [(Cb.single, b + cfg.delay)] ∧
      (run cfg [(a, .touchStart), (b, .touchEnd), (b + cfg.delay, .fire 1)]
          initState).1.clickCount = 0 ∧
      (run cfg [(a, .touchStart), (b, .touchEnd), (b + cfg.delay, .fire 1)]
          initState).1.pending = [] ∧
      (run cfg [(a, .touchStart), (b, .touchEnd), (b + cfg.delay, .fire 1)]
          initState).1.lastClickTime = 0 := by
  intro cfg a b hLP hSC hb hab hdur
  have h1 : ¬ b < 50 := by omega
  have h2 : ¬ (cfg.longPressDelay ≤ b - a) := by omega
  simp [run, step, handleTouchStart, handleTouchEnd, setTimeout, clearTimeout, initState,
    hLP, hSC, h1, h2, singleClickTimerBody, runTimeout, resetState, clearAllTimers,
    List.find?]

/-- Witness for C6: touch-start at 100, touch-end at 150, timer fired at
450 under the demo configuration. -/
theorem C6_witness :
    (run cfgD [(100, .touchStart), (150, .touchEnd)] initState).1.clickCount = 1 ∧
    (run cfgD [(100, .touchStart), (150, .touchEnd), (450, .fire 1)] initState).2.map
        (fun e => (e.cb, e.time)) = [(Cb.single, 450)] :=
  ⟨(C6_lone_tap_yields_one_single_click cfgD 100 150 (by decide) (by decide) (by decide)
      (by decide) (by decide)).1,
   (C6_lone_tap_yields_one_single_click cfgD 100 150 (by decide) (by decide) (by decide)
      (by decide) (by decide)).2.2.1⟩

/-- An event whose timestamp is within 50 ms of the last accepted one is
discarded by the click resolver: state unchanged, nothing emitted. -/
lemma handleClick_discard (cfg : Config) (now : Nat) (s : State) :
    now - s.lastClickTime < 50 → handleClick cfg now s = (s, []) := by
  intro h
  simp [handleClick, h]

/-- An event whose timestamp is within 50 ms of the last accepted one is
discarded by the touch-end resolver: state unchanged, nothing emitted. -/
lemma handleTouchEnd_discard (cfg : Config) (now : Nat) (s : State) :
    now - s.lastClickTime < 50 → handleTouchEnd cfg now s = (s, []) := by
  intro h
  simp [handleTouchEnd, h]

/-- Claim C7: an accepted touch-end at `t` (not debounced, not a
long-press) increments `clickCount` exactly once and stamps
`lastEventTimestamp` with `t`; a duplicate click or touch-end delivered
at any `t'` strictly less than 50 ms later is discarded — the state
(including `clickCount` and `lastEventTimestamp`) is left exactly as the
accepted event set it, and nothing is emitted. -/
theorem C7_duplicate_within_50ms_counts_once :
    ∀ (cfg : Config) (s : State) (t t' : Nat),
      ¬ (t - s.lastClickTime < 50) → s.isLongPress = false →
      t - s.touchStartTime < cfg.longPressDelay → s.clickCount = 0 →
      t ≤ t' → t' - t < 50 →
      (handleTouchEnd cfg t s).2 = [] ∧
      (handleTouchEnd cfg t s).1.clickCount = s.clickCount + 1 ∧
      (handleTouchEnd cfg t s).1.lastClickTime = t ∧
      handleClick cfg t' (handleTouchEnd cfg t s).1 = ((handleTouchEnd cfg t s).1, []) ∧
      handleTouchEnd cfg t' (handleTouchEnd cfg t s).1 = ((handleTouchEnd cfg t s).1, []) := by
  intro cfg s t t' hdeb hlp hdur hcc hle hgap
  have h2 : ¬ (cfg.longPressDelay ≤ t - s.touchStartTime) := by omega
  have key : (handleTouchEnd cfg t s).2 = [] ∧
      (handleTouchEnd cfg t s).1.clickCount = s.clickCount + 1 ∧
      (handleTouchEnd cfg t s).1.lastClickTime = t := by
    rcases hl : s.longPressTimer with _ | i <;>
      simp [handleTouchEnd, hl, hdeb, hcc, h2, hlp, setTimeout, clearTimeout]
  refine ⟨key.1, key.2.1, key.2.2, ?_, ?_⟩
  · exact handleClick_discard cfg t' _ (by rw [key.2.2]; omega)
  · exact handleTouchEnd_discard cfg t' _ (by rw [key.2.2]; omega)

/-- Witness for C7: touch-end at 100 and its duplicate click at 130
(30 ms later) from the initial state. -/
theorem C7_witness :
    (handleTouchEnd cfgD 100 initState).1.clickCount = initState.clickCount + 1 ∧
    handleClick cfgD 130 (handleTouchEnd cfgD 100 initState).1
      = ((handleTouchEnd cfgD 100 initState).1, []) :=
  ⟨(C7_duplicate_within_50ms_counts_once cfgD initState 100 130 (by decide) (by decide)
      (by decide) (by decide) (by decide) (by decide)).2.1,
   (C7_duplicate_within_50ms_counts_once cfgD initState 100 130 (by decide) (by decide)
      (by decide) (by decide) (by decide) (by decide)).2.2.2.1⟩

/-- A state with live timers and nonzero counters, used to exhibit the
frame effect of `handleTouchMove`: its ref holds the long-press timeout
with handle 3, and an unrelated single-click timeout with handle 7 is
also scheduled. -/
def sMove : State :=
  ⟨1, true, 5, some 7, some 3, 9, true, 11, some 8,
   [⟨3, 100, .longPress⟩, ⟨7, 200, .singleClick⟩], 9⟩

/-- Claim C8: `handleTouchMove` cancels exactly the long-press timeout
whose handle the ref holds — every other scheduled timeout survives —
and leaves every other field of the session unchanged (`clickCount`,
`isLongPress`, `touchStartTimestamp`, `lastEventTimestamp`,
`isDoubleClickProcessed`, `doubleClickSuppressUntil`, the single-click
and suppression refs, and the handle counter). -/
theorem C8_touch_move_only_cancels_long_press_timer :
    ∀ (s : State) (i : Nat) (tm : Timeout),
      (s.longPressTimer = some i → tm ∈ (handleTouchMove s).pending → tm.id ≠ i) ∧
      (tm ∈ (handleTouchMove s).pending → tm ∈ s.pending) ∧
      (tm ∈ s.pending → s.longPressTimer = some tm.id ∨ tm ∈ (handleTouchMove s).pending) ∧
      (handleTouchMove s).longPressTimer = none ∧
      (handleTouchMove s).clickCount = s.clickCount ∧
      (handleTouchMove s).isLongPress = s.isLongPress ∧
      (handleTouchMove s).touchStartTime = s.touchStartTime ∧
      (handleTouchMove s).lastClickTime = s.lastClickTime ∧
      (handleTouchMove s).isDoubleClickProcessed = s.isDoubleClickProcessed ∧
      (handleTouchMove s).suppressClickUntil = s.suppressClickUntil ∧
      (handleTouchMove s).singleClickTimer = s.singleClickTimer ∧
      (handleTouchMove s).suppressTimer = s.suppressTimer ∧
      (handleTouchMove s).nextId = s.nextId := by
  intro s i tm
  rcases hl : s.longPressTimer with _ | j <;>
    simp [handleTouchMove, hl, clearTimeout, List.mem_filter]
  refine ⟨fun hj _ h2 => by rw [← hj]; exact h2, fun h _ => h, fun hmem => ?_⟩
  by_cases hid : tm.id = j
  · exact Or.inl hid.symm
  · exact Or.inr ⟨hmem, hid⟩

/-- Witness for C8 on `sMove`: the referenced long-press timeout
(handle 3) is gone, the unrelated timeout keeps its place, and the
scalar fields are untouched. -/
theorem C8_witness :
    (handleTouchMove sMove).clickCount = sMove.clickCount ∧
    (handleTouchMove sMove).suppressClickUntil = sMove.suppressClickUntil ∧
    ((⟨7, 200, .singleClick⟩ : Timeout) ∈ (handleTouchMove sMove).pending →
      (⟨7, 200, .singleClick⟩ : Timeout) ∈ sMove.pending) ∧
    ((⟨3, 100, .longPress⟩ : Timeout).id ≠ 3 ∨
      (⟨3, 100, .longPress⟩ : Timeout) ∉ (handleTouchMove sMove).pending) :=
  ⟨(C8_touch_move_only_cancels_long_press_timer sMove 3 ⟨7, 200, .singleClick⟩).2.2.2.2.1,
   (C8_touch_move_only_cancels_long_press_timer sMove 3
      ⟨7, 200, .singleClick⟩).2.2.2.2.2.2.2.2.2.1,
   (C8_touch_move_only_cancels_long_press_timer sMove 3 ⟨7, 200, .singleClick⟩).2.1,
   Or.inr (fun hmem =>
     (C8_touch_move_only_cancels_long_press_timer sMove 3 ⟨3, 100, .longPress⟩).1
       (by decide) hmem (by decide))⟩

/-- A session state recording a previously accepted event at t = 95,
used to show the debounce window does not survive a reset. -/
def sPrev : State := ⟨0, false, 0, none, none, 95, false, 0, none, [], 0⟩

/-- Claim C9: every `resetState` (both variants) clears
`lastEventTimestamp` to 0, so for any wall-clock instant `t ≥ 50` the
50 ms duplicate guard cannot discard the first event after a reset —
even one arriving less than 50 ms after a previously accepted event —
and a click delivered to the fully reset session is accepted:
`clickCount` becomes 1 and `lastEventTimestamp` is stamped. -/
theorem C9_debounce_window_cleared_by_reset :
    ∀ (cfg : Config) (s : State) (p : Bool) (t : Nat), 50 ≤ t →
      (resetState p s).lastClickTime = 0 ∧
      ¬ (t - (resetState p s).lastClickTime < 50) ∧
      (handleClick cfg t (resetState false s)).2 = [] ∧
      (handleClick cfg t (resetState false s)).1.clickCount = 1 ∧
      (handleClick cfg t (resetState false s)).1.lastClickTime = t := by
  intro cfg s p t ht
  have h1 : ¬ t < 50 := by omega
  refine ⟨by simp, by simp; omega, ?_⟩
  have h0 : ¬ (t < (resetState false s).suppressClickUntil) := by simp
  have hd : ¬ (t - (resetState false s).lastClickTime < 50) := by simp; omega
  have hcc : (resetState false s).clickCount = 0 := by simp
  have hlpt : (resetState false s).longPressTimer = none := by simp
  simp [handleClick, h0, hd, hlpt, hcc, setTimeout, h1]

/-- Witness for C9: a reset of `sPrev` (last accepted event at 95)
followed by a click at 100, only 5 ms later, which is accepted. -/
theorem C9_witness :
    (resetState true sPrev).lastClickTime = 0 ∧
    (handleClick cfgD 100 (resetState false sPrev)).1.clickCount = 1 :=
  ⟨(C9_debounce_window_cleared_by_reset cfgD sPrev true 100 (by decide)).1,
   (C9_debounce_window_cleared_by_reset cfgD sPrev true 100 (by decide)).2.2.2.1⟩

/-- The demo configuration with the long-press callback removed. -/
def cfgNoLP : Config :=
  { delay := 300, longPressDelay := 800
    hasSingleClick := true, hasDoubleClick := true, hasLongPress := false }

/-- Claim C10: when no `onLongPress` callback is configured,
`handleTouchStart` arms nothing (the ref and the scheduled-timeout list
are untouched), and a touch held at least `longPressDelay` ms before its
touch-end produces no callback at all: the touch-end is discarded by the
hold-duration guard and the session returns exactly to the initial
state. -/
theorem C10_long_hold_without_callback_is_dropped :
    ∀ (cfg : Config) (s : State) (now a b : Nat),
      cfg.hasLongPress = false → 50 ≤ b → cfg.longPressDelay ≤ b - a →
      (handleTouchStart cfg now s).longPressTimer = s.longPressTimer ∧
      (handleTouchStart cfg now s).pending = s.pending ∧
      run cfg [(a, .touchStart), (b, .touchEnd)] initState = (initState, []) := by
  intro cfg s now a b hLP hb hdur
  have h1 : ¬ b < 50 := by omega
  refine ⟨by simp [handleTouchStart, hLP], by simp [handleTouchStart, hLP], ?_⟩
  simp [run, step, handleTouchStart, handleTouchEnd, setTimeout, clearTimeout, initState,
    hLP, h1, hdur, resetState, clearAllTimers]

/-- Witness for C10: a press at 100 held until 900 (800 ms, exactly
`longPressDelay`) with the long-press callback absent. -/
theorem C10_witness :
    (handleTouchStart cfgNoLP 5 sPrev).pending = sPrev.pending ∧
    run cfgNoLP [(100, .touchStart), (900, .touchEnd)] initState = (initState, []) :=
  ⟨(C10_long_hold_without_callback_is_dropped cfgNoLP sPrev 5 100 900 (by decide)
      (by decide) (by decide)).2.1,
   (C10_long_hold_without_callback_is_dropped cfgNoLP sPrev 5 100 900 (by decide)
      (by decide) (by decide)).2.2⟩

end UseDoubleClick
